import Mathlib

/-!
Shallow embedding of the hllib.py Python binding and its hlextract.py CLI.

Pure fragments of the Python source become Lean functions; calls into the
underlying C library (libhl.so) are modelled as explicit function
parameters, since the C code is not part of this repository; Python
exceptions become an explicit error type threaded through Except.
-/

namespace HLLibPy

/-- Python-level outcomes: the exceptions the embedded code can raise.
HLError and HLCancel are the two exception classes defined in hllib.py;
typeError and nameError model the built-in TypeError and NameError that
Python itself raises for an arity-mismatched call and an unbound name;
ioError models an OSError from the built-in open(); otherExc stands for
any further exception raised inside a user callback. -/
inductive PyErr where
  | hlError (msg : String)
  | hlCancel
  | typeError
  | nameError (n : String)
  | ioError
  | otherExc
deriving DecidableEq

/-- HLValidation.HL_VALIDATES_OK = 0 (hllib.py). -/
def HL_VALIDATES_OK : Nat := 0

/-- HLValidation.HL_VALIDATES_ASSUMED_OK = 1 (hllib.py). -/
def HL_VALIDATES_ASSUMED_OK : Nat := 1

/-- HLValidation.HL_VALIDATES_INCOMPLETE = 2 (hllib.py). -/
def HL_VALIDATES_INCOMPLETE : Nat := 2

/-- HLValidation.HL_VALIDATES_CORRUPT = 3 (hllib.py). -/
def HL_VALIDATES_CORRUPT : Nat := 3

/-- HLValidation.HL_VALIDATES_CANCELED = 4 (hllib.py). -/
def HL_VALIDATES_CANCELED : Nat := 4

/-- HLValidation.HL_VALIDATES_ERROR = 5 (hllib.py). -/
def HL_VALIDATES_ERROR : Nat := 5

/-- A directory item as the CLI validate function observes it: a file
carries the validation value that HLDirectoryFile.get_validation reports
for it, a folder carries its ordered children (hlextract.py walks them by
index with get_count and get_item). -/
inductive HLItem where
  | file (validation : Nat)
  | folder (children : List HLItem)

/-- Python 3 semantics of the expression max(a, b) where a holds an int
and b holds an int or None: an int and None are not orderable, so the
comparison raises TypeError when b is None. (Python 2 would instead
order None below every int, silently discarding b.) -/
def maxPy3 (a : Nat) (b : Option Nat) : Except PyErr Nat :=
  match b with
  | some v => Except.ok (max a v)
  | none => Except.error PyErr.typeError

mutual

/-- hlextract.py validate(item). The function body has no return
statement on any path, so on normal completion the Python return value
is None. One call in non-silent mode is modelled as the pair of the
final value of the local variable validation (the value the function
prints as the item's result) and that return value (always none): a
file's branch sets validation = item.get_validation() and prints it, a
folder's branch runs the aggregation loop over the children. -/
def validate : HLItem → Except PyErr (Nat × Option Nat)
  | HLItem.file v => Except.ok (v, none)
  | HLItem.folder cs => validateLoop HL_VALIDATES_OK cs

/-- The folder loop of hlextract.py validate: for each child,
sub_validation = validate(child) -- which is the child call's return
value, None, whenever that call completes -- and then
validation = max(validation, sub_validation); an exception from the
recursive call or from max propagates out of the loop. -/
def validateLoop : Nat → List HLItem → Except PyErr (Nat × Option Nat)
  | acc, [] => Except.ok (acc, none)
  | acc, c :: cs =>
    match validate c with
    | Except.error e => Except.error e
    | Except.ok (_, sub_validation) =>
      match maxPy3 acc sub_validation with
      | Except.error e => Except.error e
      | Except.ok m => validateLoop m cs

end

/-- C1: the code does not compute the claimed folder aggregation at all.
validate() has no return statement, so the recursive call on every child
delivers None, and on Python 3 max(validation, None) raises TypeError at
the first child of any non-empty folder -- in particular at the claim's
central input, a folder holding one OK file and one ASSUMED_OK file,
validation crashes instead of reporting OK. A leaf file's own validation
is reported verbatim (while the call still returns None), and an empty
folder reports OK. -/
theorem c1_validate_missing_return :
    validate (HLItem.folder
      [HLItem.file HL_VALIDATES_OK, HLItem.file HL_VALIDATES_ASSUMED_OK])
      = Except.error PyErr.typeError
    ∧ validate (HLItem.folder [HLItem.file HL_VALIDATES_ASSUMED_OK])
      = Except.error PyErr.typeError
    ∧ validate (HLItem.file HL_VALIDATES_ASSUMED_OK)
      = Except.ok (HL_VALIDATES_ASSUMED_OK, none)
    ∧ validate (HLItem.folder []) = Except.ok (HL_VALIDATES_OK, none) := by
  refine ⟨?_, ?_, ?_, ?_⟩ <;>
    simp [validate, validateLoop, maxPy3,
      HL_VALIDATES_OK, HL_VALIDATES_ASSUMED_OK]

/-! ## C2: progress-callback wrappers and the cancel flag (hllib.py) -/

/-- The observable behaviour of one invocation of a user callback:
either it returns normally, or it raises an exception. -/
def CallbackOutcome := Option PyErr

/-- hllib.py _set_proc_extract_file_progress, inner wrapper: call the user
callback inside try/except HLCancel; on HLCancel set cancel[0] = True; any
other exception is not caught. Takes the callback's outcome and the value
the engine stored in the cancel cell, and returns the cell's value after
the wrapper (or the escaping exception). -/
def extract_file_progress_wrapper (outcome : Option PyErr) (cancel : Bool) :
    Except PyErr Bool :=
  match outcome with
  | none => Except.ok cancel
  | some PyErr.hlCancel => Except.ok true
  | some e => Except.error e

/-- hllib.py _set_proc_validate_file_progress, inner wrapper: same
try/except HLCancel shape as the extraction wrapper. -/
def validate_file_progress_wrapper (outcome : Option PyErr) (cancel : Bool) :
    Except PyErr Bool :=
  match outcome with
  | none => Except.ok cancel
  | some PyErr.hlCancel => Except.ok true
  | some e => Except.error e

/-- hllib.py _set_proc_defragment_progress, inner wrapper: same
try/except HLCancel shape. -/
def defragment_progress_wrapper (outcome : Option PyErr) (cancel : Bool) :
    Except PyErr Bool :=
  match outcome with
  | none => Except.ok cancel
  | some PyErr.hlCancel => Except.ok true
  | some e => Except.error e

/-- hllib.py _set_proc_defragment_progress_ex, inner wrapper: same
try/except HLCancel shape. -/
def defragment_progress_ex_wrapper (outcome : Option PyErr) (cancel : Bool) :
    Except PyErr Bool :=
  match outcome with
  | none => Except.ok cancel
  | some PyErr.hlCancel => Except.ok true
  | some e => Except.error e

/-- C2: for each of the extraction, validation and defragmentation
progress wrappers installed by set_value, a user callback that raises
HLCancel makes the wrapper set the engine's cancel flag to true and the
exception does not escape the wrapper (the result is ok, not error);
a callback that returns normally leaves the cancel flag exactly as it
was, in particular unset when it was unset. -/
theorem c2_cancel_flag_wrappers :
    ∀ c : Bool,
      (extract_file_progress_wrapper (some PyErr.hlCancel) c = Except.ok true
        ∧ extract_file_progress_wrapper none c = Except.ok c
        ∧ extract_file_progress_wrapper none false = Except.ok false)
      ∧ (validate_file_progress_wrapper (some PyErr.hlCancel) c = Except.ok true
        ∧ validate_file_progress_wrapper none c = Except.ok c
        ∧ validate_file_progress_wrapper none false = Except.ok false)
      ∧ (defragment_progress_wrapper (some PyErr.hlCancel) c = Except.ok true
        ∧ defragment_progress_wrapper none c = Except.ok c
        ∧ defragment_progress_wrapper none false = Except.ok false)
      ∧ (defragment_progress_ex_wrapper (some PyErr.hlCancel) c = Except.ok true
        ∧ defragment_progress_ex_wrapper none c = Except.ok c
        ∧ defragment_progress_ex_wrapper none false = Except.ok false) := by
  intro c
  cases c <;>
    simp [extract_file_progress_wrapper, validate_file_progress_wrapper,
      defragment_progress_wrapper, defragment_progress_ex_wrapper]

/-! ## C3, C4: format detection (hllib.py Package.get_package_type_from_file)

The two heuristics hlGetPackageTypeFromName and hlGetPackageTypeFromMemory
live in the C library, not in this repository. Modelled from the spec:
name-based detection is some total function of the file name and
prefix-based detection is some total function of the probed buffer, both
returning a package type number and never throwing; the theorems quantify
over these functions. The file system behind the built-in open() is a
partial map from paths to byte contents. -/

/-- HLPackageType.HL_PACKAGE_NONE = 0 (hllib.py). -/
def HL_PACKAGE_NONE : Nat := 0

/-- HL_DEFAULT_PACKAGE_TEST_BUFFER_SIZE = 8 (hllib.py). -/
def HL_DEFAULT_PACKAGE_TEST_BUFFER_SIZE : Nat := 8

/-- hllib.py _get_const_compatible_buffer(buf, n): guards len(buf) < n
before handing the buffer to a C function. The raise statement on that
path builds its message with .format(len_buf), and len_buf is bound
nowhere (the parameters are buf and n, and hllib.py has no such module
global), so evaluating the format arguments raises NameError before the
HLError is even constructed. On the success path a Python 3 bytes
buffer is passed through unchanged. -/
def _get_const_compatible_buffer (buf : List Nat) (n : Nat) :
    Except PyErr (List Nat) :=
  if buf.length < n then Except.error (PyErr.nameError "len_buf")
  else Except.ok buf

/-- hllib.py Package.get_package_type_from_memory(buf, n): make a
C-compatible buffer (which raises for a buffer shorter than n) and ask
hlGetPackageTypeFromMemory; the C-library heuristic is the parameter
fromMemory (Modelled from the spec: prefix detection matches magic byte
sequences at the start of the source and never throws, so it is an
arbitrary total function of the buffer and length). -/
def get_package_type_from_memory (fromMemory : List Nat → Nat → Nat)
    (buf : List Nat) (n : Nat) : Except PyErr Nat :=
  match _get_const_compatible_buffer buf n with
  | Except.error e => Except.error e
  | Except.ok c_buf => Except.ok (fromMemory c_buf n)

/-- hllib.py Package.get_package_type_from_file(path): first
get_package_type_from_name(path); only when that is HL_PACKAGE_NONE,
open the file, read its first HL_DEFAULT_PACKAGE_TEST_BUFFER_SIZE bytes
(fewer if the file is shorter) and ask get_package_type_from_memory with
n = HL_DEFAULT_PACKAGE_TEST_BUFFER_SIZE. The Bool in the result records
whether the file was opened and read (instrumentation for the staging
property; the Python function returns only the type). A missing file
makes the built-in open() raise, modelled as ioError. -/
def get_package_type_from_file (fromName : String → Nat)
    (fromMemory : List Nat → Nat → Nat) (fs : String → Option (List Nat))
    (path : String) : Except PyErr (Nat × Bool) :=
  let package_type := fromName path
  if package_type = HL_PACKAGE_NONE then
    match fs path with
    | none => Except.error PyErr.ioError
    | some contents =>
        let buf := contents.take HL_DEFAULT_PACKAGE_TEST_BUFFER_SIZE
        match get_package_type_from_memory fromMemory buf
            HL_DEFAULT_PACKAGE_TEST_BUFFER_SIZE with
        | Except.error e => Except.error e
        | Except.ok t => Except.ok (t, true)
  else
    Except.ok (package_type, false)

/-- C3 counterexample: detection does throw. An existing 3-byte file
whose extension the name heuristic does not recognize makes
get_package_type_from_file raise: the prefix stage passes n = 8 to
_get_const_compatible_buffer, the short-buffer guard fires, and its
raise statement references the unbound name len_buf, so a NameError
escapes instead of a package type being returned. -/
theorem c3_short_file_counterexample :
    get_package_type_from_file (fun _ => HL_PACKAGE_NONE)
      (fun _ _ => HL_PACKAGE_NONE) (fun _ => some [1, 2, 3]) "data.bin"
      = Except.error (PyErr.nameError "len_buf") := by
  rfl

/-- C3 (amended): for every pair of total detection heuristics, every
file path and every byte content of at least
HL_DEFAULT_PACKAGE_TEST_BUFFER_SIZE = 8 bytes for it,
get_package_type_from_file returns a package type and raises no
exception, and the returned type is HL_PACKAGE_NONE exactly when both
the name heuristic and the prefix heuristic over the first 8 bytes
yield HL_PACKAGE_NONE; a file holding fewer than 8 bytes instead makes
the prefix stage raise through the buffer-length guard. -/
theorem c3_detection_total_on_adequate_files (fromName : String → Nat)
    (fromMemory : List Nat → Nat → Nat) (path : String) (contents : List Nat)
    (hlen : HL_DEFAULT_PACKAGE_TEST_BUFFER_SIZE ≤ contents.length) :
    ∃ t fileRead,
      get_package_type_from_file fromName fromMemory
        (fun _ => some contents) path = Except.ok (t, fileRead)
      ∧ (t = HL_PACKAGE_NONE ↔
          (fromName path = HL_PACKAGE_NONE
            ∧ fromMemory (contents.take HL_DEFAULT_PACKAGE_TEST_BUFFER_SIZE)
                HL_DEFAULT_PACKAGE_TEST_BUFFER_SIZE = HL_PACKAGE_NONE)) := by
  have hbuf : ¬ contents.length < HL_DEFAULT_PACKAGE_TEST_BUFFER_SIZE := by
    omega
  by_cases h : fromName path = HL_PACKAGE_NONE
  · refine ⟨fromMemory (contents.take HL_DEFAULT_PACKAGE_TEST_BUFFER_SIZE)
      HL_DEFAULT_PACKAGE_TEST_BUFFER_SIZE, true, ?_, ?_⟩
    · simp [get_package_type_from_file, get_package_type_from_memory,
        _get_const_compatible_buffer, h, hbuf]
    · simp [h]
  · refine ⟨fromName path, false, ?_, ?_⟩
    · simp [get_package_type_from_file, h]
    · simp [h]

/-- C3 witness: an 8-byte file with an unrecognized extension is probed
without an exception and yields a type. -/
theorem c3_detection_total_on_adequate_files_witness :
    HL_DEFAULT_PACKAGE_TEST_BUFFER_SIZE
      ≤ ([0, 1, 2, 3, 4, 5, 6, 7] : List Nat).length
    ∧ ∃ t fileRead,
      get_package_type_from_file (fun _ => 0) (fun _ _ => 0)
        (fun _ => some [0, 1, 2, 3, 4, 5, 6, 7]) "x"
        = Except.ok (t, fileRead)
      ∧ (t = HL_PACKAGE_NONE ↔
          ((fun _ : String => 0) "x" = HL_PACKAGE_NONE
            ∧ (fun _ : List Nat => fun _ : Nat => 0)
                (([0, 1, 2, 3, 4, 5, 6, 7] : List Nat).take
                  HL_DEFAULT_PACKAGE_TEST_BUFFER_SIZE)
                HL_DEFAULT_PACKAGE_TEST_BUFFER_SIZE = HL_PACKAGE_NONE)) :=
  ⟨by decide, c3_detection_total_on_adequate_files (fun _ => 0) (fun _ _ => 0)
    "x" [0, 1, 2, 3, 4, 5, 6, 7] (by decide)⟩

/-- C4: detection from a file is two-staged: when the name heuristic
yields a type other than HL_PACKAGE_NONE, that type is returned and the
file is never opened or read (for any state of the file system,
including a missing file); only when the name heuristic yields
HL_PACKAGE_NONE is the file read -- its first
HL_DEFAULT_PACKAGE_TEST_BUFFER_SIZE bytes are then handed to the prefix
heuristic when the file holds at least that many, while a shorter file
makes the probe raise through the buffer-length guard; the probe size
is 8. -/
theorem c4_detection_two_stage (fromName : String → Nat)
    (fromMemory : List Nat → Nat → Nat) (fs : String → Option (List Nat))
    (path : String) (contents : List Nat) :
    (fromName path ≠ HL_PACKAGE_NONE →
      get_package_type_from_file fromName fromMemory fs path
        = Except.ok (fromName path, false))
    ∧ (fromName path = HL_PACKAGE_NONE → fs path = some contents →
        HL_DEFAULT_PACKAGE_TEST_BUFFER_SIZE ≤ contents.length →
      get_package_type_from_file fromName fromMemory fs path
        = Except.ok
            (fromMemory (contents.take HL_DEFAULT_PACKAGE_TEST_BUFFER_SIZE)
              HL_DEFAULT_PACKAGE_TEST_BUFFER_SIZE, true))
    ∧ (fromName path = HL_PACKAGE_NONE → fs path = some contents →
        contents.length < HL_DEFAULT_PACKAGE_TEST_BUFFER_SIZE →
      get_package_type_from_file fromName fromMemory fs path
        = Except.error (PyErr.nameError "len_buf"))
    ∧ HL_DEFAULT_PACKAGE_TEST_BUFFER_SIZE = 8 := by
  refine ⟨?_, ?_, ?_, rfl⟩
  · intro h; simp [get_package_type_from_file, h]
  · intro h hfs hlen
    have hbuf : ¬ contents.length < HL_DEFAULT_PACKAGE_TEST_BUFFER_SIZE := by
      omega
    simp [get_package_type_from_file, get_package_type_from_memory,
      _get_const_compatible_buffer, h, hfs, hbuf]
  · intro h hfs hlen
    simp [get_package_type_from_file, get_package_type_from_memory,
      _get_const_compatible_buffer, h, hfs, hlen]

/-- C4 witness: a name-stage hit decides alone with no file read even
with no file present; on a name-stage miss the probe runs on the first
8 bytes of an 8-byte file; and on a name-stage miss over a 3-byte file
the probe raises from the buffer-length guard. -/
theorem c4_detection_two_stage_witness :
    get_package_type_from_file (fun _ => 2) (fun _ _ => 0) (fun _ => none) "x"
      = Except.ok (2, false)
    ∧ get_package_type_from_file (fun _ => 0) (fun _ _ => 5)
        (fun _ => some [10, 20, 30, 40, 50, 60, 70, 80]) "x"
        = Except.ok (5, true)
    ∧ get_package_type_from_file (fun _ => 0) (fun _ _ => 7)
        (fun _ => some [9, 9, 9]) "x"
        = Except.error (PyErr.nameError "len_buf") := by
  refine ⟨?_, ?_, ?_⟩
  · exact (c4_detection_two_stage (fun _ => 2) (fun _ _ => 0)
      (fun _ => none) "x" []).1 (by decide)
  · exact (c4_detection_two_stage (fun _ => 0) (fun _ _ => 5)
      (fun _ => some [10, 20, 30, 40, 50, 60, 70, 80]) "x"
      [10, 20, 30, 40, 50, 60, 70, 80]).2.1 rfl rfl (by decide)
  · exact (c4_detection_two_stage (fun _ => 0) (fun _ _ => 7)
      (fun _ => some [9, 9, 9]) "x" [9, 9, 9]).2.2.1 rfl rfl (by decide)

/-! ## C5: folder item lookup (hllib.py HLDirectoryFolder) -/

/-- HLDirectoryItemType.HL_ITEM_NONE = 0 (hllib.py). -/
def HL_ITEM_NONE : Nat := 0

/-- HLDirectoryItemType.HL_ITEM_FOLDER = 1 (hllib.py). -/
def HL_ITEM_FOLDER : Nat := 1

/-- HLDirectoryItemType.HL_ITEM_FILE = 2 (hllib.py). -/
def HL_ITEM_FILE : Nat := 2

/-- A Python-side directory item instance wrapping a C handle, as
constructed by _hl_directory_instance: an HLDirectoryFolder or an
HLDirectoryFile. -/
inductive PyDirItem where
  | folder (handle : Nat)
  | file (handle : Nat)
deriving DecidableEq

/-- hllib.py _hl_directory_instance(handle): raise HLError on an empty
handle; ask hlItemGetType (modelled as the function itemType on handles);
raise HLError on HL_ITEM_NONE, wrap HL_ITEM_FOLDER and HL_ITEM_FILE, and
fall through (returning the Python None) on any other type value. -/
def hl_directory_instance (itemType : Nat → Nat) :
    Option Nat → Except PyErr (Option PyDirItem)
  | none => Except.error (PyErr.hlError
      "Cannot create directory item instance from empty handle.")
  | some h =>
    let item_type := itemType h
    if item_type = HL_ITEM_NONE then
      Except.error (PyErr.hlError
        "Cannot create directory item instance from indeterminate item type.")
    else if item_type = HL_ITEM_FOLDER then
      Except.ok (some (PyDirItem.folder h))
    else if item_type = HL_ITEM_FILE then
      Except.ok (some (PyDirItem.file h))
    else
      Except.ok none

/-- hllib.py HLDirectoryFolder.get_item_by_name: call
hlFolderGetItemByName (its result on this folder, name and find mask is
the parameter lookupResult: none models a NULL return) and return None if
it is NULL, else the wrapped instance. -/
def get_item_by_name (itemType : Nat → Nat) (lookupResult : Option Nat) :
    Except PyErr (Option PyDirItem) :=
  match lookupResult with
  | none => Except.ok none
  | some h => hl_directory_instance itemType (some h)

/-- hllib.py HLDirectoryFolder.get_item_by_path: same shape as
get_item_by_name over hlFolderGetItemByPath. -/
def get_item_by_path (itemType : Nat → Nat) (lookupResult : Option Nat) :
    Except PyErr (Option PyDirItem) :=
  match lookupResult with
  | none => Except.ok none
  | some h => hl_directory_instance itemType (some h)

/-- C5: when the C lookup finds nothing (NULL), get_item_by_name and
get_item_by_path return the absence value None and raise no exception;
when the lookup succeeds with a handle whose item type is folder or file
(the only types real items carry), they return a directory item. -/
theorem c5_lookup_miss_returns_none (itemType : Nat → Nat) (h : Nat) :
    (get_item_by_name itemType none = Except.ok none
      ∧ get_item_by_path itemType none = Except.ok none)
    ∧ ((itemType h = HL_ITEM_FOLDER ∨ itemType h = HL_ITEM_FILE) →
      (∃ item, get_item_by_name itemType (some h) = Except.ok (some item))
        ∧ ∃ item, get_item_by_path itemType (some h) = Except.ok (some item)) := by
  refine ⟨⟨rfl, rfl⟩, ?_⟩
  rintro (ht | ht)
  · exact ⟨⟨PyDirItem.folder h, by
      simp [get_item_by_name, hl_directory_instance, ht,
        HL_ITEM_FOLDER, HL_ITEM_NONE]⟩,
      ⟨PyDirItem.folder h, by
        simp [get_item_by_path, hl_directory_instance, ht,
          HL_ITEM_FOLDER, HL_ITEM_NONE]⟩⟩
  · exact ⟨⟨PyDirItem.file h, by
      simp [get_item_by_name, hl_directory_instance, ht,
        HL_ITEM_FILE, HL_ITEM_FOLDER, HL_ITEM_NONE]⟩,
      ⟨PyDirItem.file h, by
        simp [get_item_by_path, hl_directory_instance, ht,
          HL_ITEM_FILE, HL_ITEM_FOLDER, HL_ITEM_NONE]⟩⟩

/-- C5 witness: a miss yields None and a hit on a folder-typed handle
yields an item. -/
theorem c5_lookup_miss_returns_none_witness :
    get_item_by_name (fun _ => 1) none = Except.ok none
    ∧ ∃ item, get_item_by_name (fun _ => 1) (some 0) = Except.ok (some item) :=
  ⟨(c5_lookup_miss_returns_none (fun _ => 1) 0).1.1,
    ((c5_lookup_miss_returns_none (fun _ => 1) 0).2 (Or.inl rfl)).1⟩

/-! ## C6: stream creation (hllib.py HLDirectoryFile.create_stream and
Package.create_stream) -/

/-- The Python HLStream instance: wraps the stream handle the C library
filled into the ctypes pointer cell. -/
structure HLStreamObj where
  handle : Nat
deriving DecidableEq

/-- hllib.py HLDirectoryFile.create_stream: pointer = hlVoidPtr(); call
hlFileCreateStream(self, byref(pointer)); on a false return raise
HLError, else return HLStream(pointer). The C call is modelled as a
function from the file handle to Option Nat: some p means success with
the pointer cell filled with p, none means a false (failure) return. -/
def file_create_stream (fileHandle : Nat)
    (hlFileCreateStream : Nat → Option Nat) : Except PyErr HLStreamObj :=
  match hlFileCreateStream fileHandle with
  | some p => Except.ok ⟨p⟩
  | none => Except.error (PyErr.hlError "Failed to create stream from file.")

/-- hllib.py binds (at module level) no name result: the names defined at
module scope of hllib.py are exceptions, typedefs, option classes, the
Package and item classes, the _set_proc helpers, _setters, get_value and
set_value; none of them is named result. -/
def hllib_module_has_global_result : Bool := false

/-- hllib.py Package.create_stream: pointer = hlVoidPtr(); then evaluate
hlPackageCreateStream(directory_file, byref(result)). The name result is
not among the locals bound at that point (only directory_file and
pointer are) and is not a module global, so evaluating the argument
byref(result) raises NameError before the C call happens; the
(unreachable) bound-name branch models what the line would do if the
name resolved, following the rest of the source line. -/
def package_create_stream (fileHandle : Nat)
    (hlPackageCreateStream : Nat → Option Nat) : Except PyErr HLStreamObj :=
  let localNames : List String := ["directory_file", "pointer"]
  if localNames.contains "result" || hllib_module_has_global_result then
    match hlPackageCreateStream fileHandle with
    | some p => Except.ok ⟨p⟩
    | none => Except.error (PyErr.hlError
        "Failed to create stream from directory file.")
  else
    Except.error (PyErr.nameError "result")

/-- C6: HLDirectoryFile.create_stream behaves as claimed (a stream on
library success, HLError exactly on library failure), but
Package.create_stream raises NameError on every call, whether the
underlying library call would succeed or fail, because its source refers
to an unbound name result instead of pointer; so the claim fails for
Package.create_stream. -/
theorem c6_create_stream_name_error :
    file_create_stream 7 (fun _ => some 42) = Except.ok ⟨42⟩
    ∧ file_create_stream 7 (fun _ => none)
        = Except.error (PyErr.hlError "Failed to create stream from file.")
    ∧ package_create_stream 7 (fun _ => some 42)
        = Except.error (PyErr.nameError "result")
    ∧ package_create_stream 7 (fun _ => none)
        = Except.error (PyErr.nameError "result") := by
  refine ⟨rfl, rfl, rfl, rfl⟩

/-! ## C7: the CLI defragment progress handler (hlextract.py) -/

/-- A Python runtime value as far as this model needs it: an integer, or
an opaque object (module, function, instance) identified by name. -/
inductive PyVal where
  | int (n : Nat)
  | obj (name : String)
deriving DecidableEq

/-- The parameter list of hlextract.py defragment_progress_callback, in
order; all six are required positional parameters with no defaults. -/
def defragment_progress_callback_params : List String :=
  ["item", "files_defragmented", "files_total", "bytes_defragmented",
   "bytes_total", "cancel"]

/-- The names bound at module scope of hlextract.py: the imports, the two
module variables, and every top-level def. -/
def hlextract_module_globals : List String :=
  ["print_function", "argparse", "hl", "shlex", "sys", "os",
   "args", "progress_last",
   "main", "get_argument_parser", "parse_arguments", "set_options",
   "get_file_mode", "extract_items", "validate_items", "validate",
   "get_validation_string", "list_items", "list_items_recursive",
   "defragment", "enter_console", "console_ls", "console_cd",
   "console_info", "console_extract", "console_validate", "console_find",
   "console_type", "console_open", "console_status", "console_help",
   "print_attribute", "extract_item_start_callback",
   "extract_item_end_callback", "file_progress_callback",
   "defragment_progress_callback", "progress_start", "progress_update"]

/-- The module-global environment of hlextract.py for name resolution:
every module-scope name bound to an opaque object (their values are never
consulted below, only their existence). -/
def hlextract_globals_env : List (String × PyVal) :=
  hlextract_module_globals.map (fun n => (n, PyVal.obj n))

/-- Python positional-call argument binding: with no default values, a
call binds parameters to arguments one-to-one and raises TypeError when
the counts differ. -/
def bindArgs (params : List String) (args : List PyVal) :
    Except PyErr (List (String × PyVal)) :=
  if params.length = args.length then Except.ok (params.zip args)
  else Except.error PyErr.typeError

/-- Python name resolution inside a function body of hlextract.py: local
frame first, then module globals, else NameError. -/
def resolveName (frame : List (String × PyVal)) (n : String) :
    Except PyErr PyVal :=
  match frame.lookup n with
  | some v => Except.ok v
  | none =>
    match hlextract_globals_env.lookup n with
    | some v => Except.ok v
    | none => Except.error (PyErr.nameError n)

/-- One invocation of hlextract.py defragment_progress_callback with the
given positional arguments: bind the arguments against its parameter
list, then execute its body, which evaluates
progress_update(bytes_extracted, bytes_total); the result is the pair of
values handed to progress_update. -/
def defragment_progress_callback_call (args : List PyVal) :
    Except PyErr (PyVal × PyVal) :=
  match bindArgs defragment_progress_callback_params args with
  | Except.error e => Except.error e
  | Except.ok frame =>
    match resolveName frame "bytes_extracted" with
    | Except.error e => Except.error e
    | Except.ok v =>
      match resolveName frame "bytes_total" with
      | Except.error e => Except.error e
      | Except.ok w => Except.ok (v, w)

/-- The argument list the hllib.py _set_proc_defragment_progress_ex
wrapper hands to the registered callback: the wrapped item instance and
the four progress quantities (filesDone, filesTotal, bytesDone,
bytesTotal) -- five positional arguments. -/
def defragment_progress_ex_wrapper_args
    (item fd ft bd bt : PyVal) : List PyVal :=
  [item, fd, ft, bd, bt]

/-- C7: the wrapping layer does deliver the four progress quantities
(with the item, five arguments in all, bytes-done under the parameter
name bytes_defragmented), but the CLI handler never forwards them: its
parameter list has six required parameters, so the wrapper's five-argument
call raises TypeError; and even called with a sixth argument, its body
refers to the unbound name bytes_extracted, raising NameError, which is
bound neither in the handler frame nor at hlextract.py module scope. -/
theorem c7_defragment_callback_bug :
    (∀ item fd ft bd bt : PyVal,
      defragment_progress_callback_call
        (defragment_progress_ex_wrapper_args item fd ft bd bt)
        = Except.error PyErr.typeError)
    ∧ defragment_progress_callback_call
        [PyVal.obj "item", PyVal.int 1, PyVal.int 2, PyVal.int 4096,
         PyVal.int 8192, PyVal.int 0]
        = Except.error (PyErr.nameError "bytes_extracted")
    ∧ defragment_progress_callback_params.contains "bytes_defragmented" = true
    ∧ hlextract_module_globals.contains "bytes_extracted" = false := by
  refine ⟨?_, rfl, by decide, by decide⟩
  intro item fd ft bd bt
  rfl

/-! ## C8: open mode for defragmentation (hlextract.py get_file_mode) -/

/-- HLFileMode.HL_MODE_READ = 0x01 (hllib.py). -/
def HL_MODE_READ : Nat := 0x01

/-- HLFileMode.HL_MODE_WRITE = 0x02 (hllib.py). -/
def HL_MODE_WRITE : Nat := 0x02

/-- HLFileMode.HL_MODE_VOLATILE = 0x08 (hllib.py). -/
def HL_MODE_VOLATILE : Nat := 0x08

/-- HLFileMode.HL_MODE_NO_FILEMAPPING = 0x10 (hllib.py). -/
def HL_MODE_NO_FILEMAPPING : Nat := 0x10

/-- HLFileMode.HL_MODE_QUICK_FILEMAPPING = 0x20 (hllib.py). -/
def HL_MODE_QUICK_FILEMAPPING : Nat := 0x20

/-- hlextract.py get_file_mode(): start from HL_MODE_READ and or in
HL_MODE_WRITE when args.defragment, HL_MODE_NO_FILEMAPPING when not
args.filemapping, HL_MODE_QUICK_FILEMAPPING when args.quick_filemapping,
HL_MODE_VOLATILE when args.volatile. -/
def get_file_mode (defragment filemapping quick_filemapping volatile : Bool) :
    Nat :=
  let file_mode := HL_MODE_READ
  let file_mode := if defragment then file_mode ||| HL_MODE_WRITE
                   else file_mode
  let file_mode := if !filemapping then file_mode ||| HL_MODE_NO_FILEMAPPING
                   else file_mode
  let file_mode := if quick_filemapping then
                     file_mode ||| HL_MODE_QUICK_FILEMAPPING
                   else file_mode
  let file_mode := if volatile then file_mode ||| HL_MODE_VOLATILE
                   else file_mode
  file_mode

/-- C8: for every combination of the CLI flags, the computed open mode
contains the HL_MODE_WRITE bit exactly when defragmentation is requested,
and always contains the HL_MODE_READ bit. -/
theorem c8_defragment_opens_writable :
    ∀ defragment filemapping quick_filemapping volatile : Bool,
      ((get_file_mode defragment filemapping quick_filemapping volatile
          &&& HL_MODE_WRITE = HL_MODE_WRITE) ↔ defragment = true)
      ∧ get_file_mode defragment filemapping quick_filemapping volatile
          &&& HL_MODE_READ = HL_MODE_READ := by
  decide

/-! ## C9: HLAttribute.get_hexadecimal (hllib.py) -/

/-- HLAttributeType.HL_ATTRIBUTE_INVALID = 0 (hllib.py). -/
def HL_ATTRIBUTE_INVALID : Nat := 0

/-- HLAttributeType.HL_ATTRIBUTE_BOOLEAN = 1 (hllib.py). -/
def HL_ATTRIBUTE_BOOLEAN : Nat := 1

/-- HLAttributeType.HL_ATTRIBUTE_INTEGER = 2 (hllib.py). -/
def HL_ATTRIBUTE_INTEGER : Nat := 2

/-- HLAttributeType.HL_ATTRIBUTE_UNSIGNED_INTEGER = 3 (hllib.py). -/
def HL_ATTRIBUTE_UNSIGNED_INTEGER : Nat := 3

/-- HLAttributeType.HL_ATTRIBUTE_FLOAT = 4 (hllib.py). -/
def HL_ATTRIBUTE_FLOAT : Nat := 4

/-- HLAttributeType.HL_ATTRIBUTE_STRING = 5 (hllib.py). -/
def HL_ATTRIBUTE_STRING : Nat := 5

/-- The HLAttribute ctypes structure, restricted to the fields
get_hexadecimal and get_type read: the type tag, the name, and the
UnsignedInteger arm of the Value union (value, hexadecimal). -/
structure HLAttribute where
  attribute_type : Nat
  name : String
  uint_value : Nat
  uint_hexadecimal : Bool
deriving DecidableEq

/-- hllib.py HLAttribute.get_type(). -/
def HLAttribute.get_type (a : HLAttribute) : Nat := a.attribute_type

/-- hllib.py HLAttribute.get_hexadecimal(): the stored hexadecimal flag
when get_type() is HL_ATTRIBUTE_UNSIGNED_INTEGER, else raise HLError. -/
def HLAttribute.get_hexadecimal (a : HLAttribute) : Except PyErr Bool :=
  if a.get_type = HL_ATTRIBUTE_UNSIGNED_INTEGER then
    Except.ok a.uint_hexadecimal
  else
    Except.error (PyErr.hlError ("Cannot call get_hexadecimal() on an "
      ++ "attribute that is not an unsigned integer type."))

/-- C9: get_hexadecimal returns the stored hexadecimal display flag when
the attribute type is HL_ATTRIBUTE_UNSIGNED_INTEGER, and raises HLError
for every other type value; it is a pure function of the attribute, so
the attribute is left unchanged. -/
theorem c9_get_hexadecimal (a : HLAttribute) :
    (a.attribute_type = HL_ATTRIBUTE_UNSIGNED_INTEGER →
      a.get_hexadecimal = Except.ok a.uint_hexadecimal)
    ∧ (a.attribute_type ≠ HL_ATTRIBUTE_UNSIGNED_INTEGER →
      ∃ msg, a.get_hexadecimal = Except.error (PyErr.hlError msg)) := by
  constructor
  · intro h; simp [HLAttribute.get_hexadecimal, HLAttribute.get_type, h]
  · intro h
    refine ⟨"Cannot call get_hexadecimal() on an "
      ++ "attribute that is not an unsigned integer type.", ?_⟩
    simp [HLAttribute.get_hexadecimal, HLAttribute.get_type, h]

/-- C9 witness: on an unsigned-integer attribute the stored flag comes
back; on a boolean attribute an HLError is raised. -/
theorem c9_get_hexadecimal_witness :
    (HLAttribute.mk HL_ATTRIBUTE_UNSIGNED_INTEGER "v" 9 true).get_hexadecimal
      = Except.ok true
    ∧ ∃ msg,
      (HLAttribute.mk HL_ATTRIBUTE_BOOLEAN "b" 0 false).get_hexadecimal
        = Except.error (PyErr.hlError msg) :=
  ⟨(c9_get_hexadecimal (HLAttribute.mk HL_ATTRIBUTE_UNSIGNED_INTEGER
      "v" 9 true)).1 rfl,
    (c9_get_hexadecimal (HLAttribute.mk HL_ATTRIBUTE_BOOLEAN
      "b" 0 false)).2 (by decide)⟩

/-! ## C10: the CLI progress display (hlextract.py progress_update)

The Python loop condition is progress >= progress_last + 10 with
progress = bytes_extracted * 100 / bytes_total (and progress = 100 when
bytes_total is zero). Since progress_last + 10 is an integer, the
condition is embedded exactly by cross-multiplying, avoiding the float:
progress >= L iff bytes_extracted * 100 >= L * bytes_total. The while
loop is embedded with explicit fuel; progressLoop_finished shows the
chosen fuel always lets the loop run to its genuine exit condition, so
the embedding computes the same final progress_last as the source. -/

/-- The loop condition of hlextract.py progress_update, at a given
progress_last value. -/
def progressCond (bytes_extracted bytes_total progress_last : Nat) : Bool :=
  if bytes_total = 0 then
    decide (progress_last + 10 ≤ 100)
  else
    decide ((progress_last + 10) * bytes_total ≤ bytes_extracted * 100)

/-- The while loop of hlextract.py progress_update: while the condition
holds, advance progress_last by 10 (the source also prints a progress
mark at each step; printing has no effect on the state). -/
def progressLoop : Nat → Nat → Nat → Nat → Nat
  | 0, _, _, progress_last => progress_last
  | fuel + 1, bytes_extracted, bytes_total, progress_last =>
    if progressCond bytes_extracted bytes_total progress_last then
      progressLoop fuel bytes_extracted bytes_total (progress_last + 10)
    else
      progress_last

/-- hlextract.py progress_start(): resets the module-global
progress_last to 0. -/
def progress_start : Nat := 0

/-- hlextract.py progress_update(bytes_extracted, bytes_total): in silent
mode nothing happens; otherwise run the display loop on the module-global
progress_last and return its new value. -/
def progress_update (silent : Bool) (bytes_extracted bytes_total
    progress_last : Nat) : Nat :=
  if silent then progress_last
  else progressLoop (100 * bytes_extracted + 11) bytes_extracted bytes_total
    progress_last

theorem progressLoop_le_self (fuel bytes_extracted bytes_total : Nat) :
    ∀ progress_last, progress_last ≤
      progressLoop fuel bytes_extracted bytes_total progress_last := by
  induction fuel with
  | zero => intro l; simp [progressLoop]
  | succ f ih =>
    intro l
    by_cases hc : progressCond bytes_extracted bytes_total l
    · calc l ≤ l + 10 := by omega
        _ ≤ progressLoop f bytes_extracted bytes_total (l + 10) := ih (l + 10)
        _ = progressLoop (f + 1) bytes_extracted bytes_total l := by
            simp [progressLoop, hc]
    · simp [progressLoop, hc]

theorem progressLoop_step_ten (fuel bytes_extracted bytes_total : Nat) :
    ∀ progress_last, ∃ k,
      progressLoop fuel bytes_extracted bytes_total progress_last
        = progress_last + 10 * k := by
  induction fuel with
  | zero => intro l; exact ⟨0, by simp [progressLoop]⟩
  | succ f ih =>
    intro l
    by_cases hc : progressCond bytes_extracted bytes_total l
    · obtain ⟨k, hk⟩ := ih (l + 10)
      exact ⟨k + 1, by simp [progressLoop, hc, hk]; omega⟩
    · exact ⟨0, by simp [progressLoop, hc]⟩

theorem progressLoop_finished (bytes_extracted bytes_total : Nat) :
    ∀ fuel progress_last,
      progressCond bytes_extracted bytes_total (progress_last + 10 * fuel)
        = false →
      progressCond bytes_extracted bytes_total
        (progressLoop fuel bytes_extracted bytes_total progress_last)
        = false := by
  intro fuel
  induction fuel with
  | zero => intro l h; simpa [progressLoop] using h
  | succ f ih =>
    intro l h
    by_cases hc : progressCond bytes_extracted bytes_total l
    · simp only [progressLoop, hc, if_true]
      exact ih (l + 10) (by rw [show l + 10 + 10 * f = l + 10 * (f + 1) by omega]; exact h)
    · simp [progressLoop, hc]

theorem progressCond_fuel_false (bytes_extracted bytes_total
    progress_last : Nat) :
    progressCond bytes_extracted bytes_total
      (progress_last + 10 * (100 * bytes_extracted + 11)) = false := by
  unfold progressCond
  by_cases hbt : bytes_total = 0
  · simp only [hbt, if_true, decide_eq_false_iff_not]
    omega
  · simp only [hbt, if_false, decide_eq_false_iff_not]
    intro hle
    have hpos : 0 < bytes_total := Nat.pos_of_ne_zero hbt
    have hx : progress_last + 10 * (100 * bytes_extracted + 11) + 10
        ≤ (progress_last + 10 * (100 * bytes_extracted + 11) + 10)
            * bytes_total := Nat.le_mul_of_pos_right _ hpos
    have := le_trans hx hle
    omega

theorem progressLoop_zero_total_le (bytes_extracted : Nat) :
    ∀ fuel progress_last, progress_last ≤ 100 →
      progressLoop fuel bytes_extracted 0 progress_last ≤ 100 := by
  intro fuel
  induction fuel with
  | zero => intro l h; simpa [progressLoop] using h
  | succ f ih =>
    intro l h
    by_cases hc : progressCond bytes_extracted 0 l
    · simp only [progressLoop, hc, if_true]
      have h10 : l + 10 ≤ 100 := by
        have := hc
        unfold progressCond at this
        simpa using this
      exact ih (l + 10) h10
    · simpa [progressLoop, hc] using h

/-- C10: in non-silent mode a total of zero bytes drives the displayed
counter from a fresh start all the way to 100 (a zero-byte file
immediately reports full progress); for every call, the counter never
decreases, and it only ever advances by a multiple of 10. -/
theorem c10_progress_update :
    (∀ bytes_extracted,
      progress_update false bytes_extracted 0 progress_start = 100)
    ∧ (∀ silent bytes_extracted bytes_total progress_last,
      progress_last ≤
        progress_update silent bytes_extracted bytes_total progress_last)
    ∧ (∀ silent bytes_extracted bytes_total progress_last, ∃ k,
      progress_update silent bytes_extracted bytes_total progress_last
        = progress_last + 10 * k) := by
  refine ⟨?_, ?_, ?_⟩
  · intro be
    have hfin := progressLoop_finished be 0 (100 * be + 11) 0
      (progressCond_fuel_false be 0 0)
    have hle := progressLoop_zero_total_le be (100 * be + 11) 0 (by omega)
    obtain ⟨k, hk⟩ := progressLoop_step_ten (100 * be + 11) be 0 0
    unfold progressCond at hfin
    simp only [if_true, decide_eq_false_iff_not] at hfin
    simp only [progress_update, progress_start, if_false, Bool.false_eq_true]
    omega
  · intro s be bt l
    cases s
    · simpa [progress_update] using progressLoop_le_self (100 * be + 11) be bt l
    · simp [progress_update]
  · intro s be bt l
    cases s
    · simpa [progress_update] using progressLoop_step_ten (100 * be + 11) be bt l
    · exact ⟨0, by simp [progress_update]⟩

end HLLibPy
